import Mathlib

set_option maxRecDepth 100000

/-!
Verification of the OISP sensor eBPF programs (src/bpf/ssl_monitor.bpf.c and
src/bpf/process_monitor.bpf.c) against their natural-language specification.

The two BPF programs are shallowly embedded as pure Lean functions.  Kernel
helpers are modelled by their documented semantics:

* bpf_get_current_pid_tgid / bpf_get_current_uid_gid / bpf_ktime_get_ns are
  fields of an explicit context record;
* user and kernel memory regions read by the handlers are functions from a
  byte offset to a byte value;
* bpf_probe_read_user may fail, which is modelled by an explicit oracle
  readOk in the context (true means the bounds-checked read succeeds);
* a BPF hash map is an association list with at most one entry per key,
  mutated by the usual lookup / update (BPF_ANY) / delete operations;
* bpf_ringbuf_reserve may fail (reserveOk flag); the reserved slot's initial
  bytes are an explicit, unspecified event value (ring-buffer memory is
  reused, so a handler that does not write a field leaves stale content);
  a handler's visible outcome is the committed event, if any.

Byte strings (comm, exe, args, the payload) are modelled as functions from
offset to byte so that partially-written fixed-width fields keep their stale
content at untouched offsets.
-/

namespace OISP

/-! ## Byte-string helpers (kernel string-copy semantics) -/

/-- Length of the NUL-terminated string in src starting at offset i, capped
at the given fuel: counts bytes before the first NUL, at most fuel. -/
def cstrLenAux (src : Nat → Nat) : Nat → Nat → Nat
  | _, 0 => 0
  | i, n + 1 => if src i = 0 then 0 else cstrLenAux src (i + 1) n + 1

/-- Length of the NUL-terminated string in src (from offset 0), capped at cap. -/
def cstrLen (src : Nat → Nat) (cap : Nat) : Nat :=
  cstrLenAux src 0 cap

/-- Semantics of bpf_get_current_comm (kernel strscpy_pad): copies at most
size - 1 bytes of the source string into a size-byte field, NUL-filling the
remainder of the field; offsets at or beyond size keep the old content. -/
def strscpy_pad (size : Nat) (src old : Nat → Nat) : Nat → Nat :=
  fun i =>
    if i < size then
      (if i < cstrLen src (size - 1) then src i else 0)
    else old i

/-- Semantics of bpf_probe_read_str: copies the source string truncated to
size - 1 bytes, writes a terminating NUL right after it, and leaves the rest
of the destination untouched. -/
def bpf_probe_read_str (size : Nat) (src old : Nat → Nat) : Nat → Nat :=
  fun i =>
    if i < cstrLen src (size - 1) then src i
    else if i = cstrLen src (size - 1) then 0
    else old i

/-- Executable check that a fixed-width string field holds a NUL byte within
its declared capacity. -/
def hasNulWithin (f : Nat → Nat) (cap : Nat) : Bool :=
  (List.range cap).any (fun i => f i == 0)

/-! ## BPF hash map model (the Correlation Store)

A BPF hash map keyed by u64 with pointer-sized values is modelled as an
association list of (key, value) pairs.  bpf_map_update_elem with BPF_ANY
replaces the value of an existing entry in place and otherwise inserts a new
entry; bpf_map_delete_elem removes the entry of the key. -/

/-- The correlation store: key = pid_tgid, value = saved buffer address. -/
def CorrMap : Type := List (Nat × Nat)

/-- bpf_map_lookup_elem: value of the first entry with the given key. -/
def mapLookup (m : CorrMap) (k : Nat) : Option Nat :=
  match m with
  | [] => none
  | (k0, v0) :: rest => if k0 = k then some v0 else mapLookup rest k

/-- bpf_map_update_elem with flag BPF_ANY: overwrite the entry of the key in
place if present, otherwise insert a fresh entry. -/
def mapUpdate (m : CorrMap) (k v : Nat) : CorrMap :=
  match m with
  | [] => [(k, v)]
  | (k0, v0) :: rest =>
      if k0 = k then (k, v) :: rest else (k0, v0) :: mapUpdate rest k v

/-- bpf_map_delete_elem: remove every entry of the key (a well-formed BPF
hash map has at most one). -/
def mapDelete (m : CorrMap) (k : Nat) : CorrMap :=
  match m with
  | [] => []
  | (k0, v0) :: rest =>
      if k0 = k then mapDelete rest k else (k0, v0) :: mapDelete rest k

/-- Number of resident entries whose key is k. -/
def keyCount (m : CorrMap) (k : Nat) : Nat :=
  match m with
  | [] => 0
  | (k0, _) :: rest => (if k0 = k then 1 else 0) + keyCount rest k

/-! ## SSL/TLS monitor (src/bpf/ssl_monitor.bpf.c) -/

def MAX_DATA_SIZE : Nat := 16384

def SSL_READ : Nat := 0

def SSL_WRITE : Nat := 1

/-- struct ssl_data_event.  The payload and comm arrays are functions from
byte offset to byte value; data_len is the u32 field, type the u8 tag. -/
structure ssl_data_event where
  timestamp_ns : Nat
  pid : Nat
  tid : Nat
  uid : Nat
  data_len : Nat
  type : Nat
  data : Nat → Nat
  comm : Nat → Nat

/-- The calling-thread context of one SSL handler invocation: current ids,
clock, current task comm, the user address space visible at return time, and
the oracle telling whether a bounds-checked user read of n bytes at a given
address succeeds. -/
structure SslCtx where
  pid_tgid : Nat
  uid_gid : Nat
  ktime : Nat
  comm : Nat → Nat
  userMem : Nat → Nat
  readOk : Nat → Nat → Bool

/-- The two correlation maps of ssl_monitor.bpf.c. -/
structure SslState where
  ssl_write_args : CorrMap
  ssl_read_args : CorrMap

/-- emit_ssl_event: rejects len outside (0, MAX_DATA_SIZE]; reserves a ring
buffer slot (failure drops the event); fills the header fields and comm;
copies len masked with MAX_DATA_SIZE - 1 bytes from the user buffer, and on
read failure discards the slot.  Returns the committed event, if any. -/
def emit_ssl_event (c : SslCtx) (reserveOk : Bool) (slot : ssl_data_event)
    (buf : Nat) (len : Int) (ty : Nat) : Option ssl_data_event :=
  if len ≤ 0 ∨ (MAX_DATA_SIZE : Int) < len then none
  else if reserveOk = false then none
  else
    let n := Nat.land len.toNat (MAX_DATA_SIZE - 1)
    if c.readOk buf n = false then none
    else
      some { timestamp_ns := c.ktime
             pid := c.pid_tgid >>> 32
             tid := c.pid_tgid % 2 ^ 32
             uid := c.uid_gid % 2 ^ 32
             data_len := len.toNat
             type := ty
             data := fun i => if i < n then c.userMem (buf + i) else slot.data i
             comm := strscpy_pad 16 c.comm slot.comm }

/-- uprobe/SSL_write entry handler: saves the buffer argument keyed by
pid_tgid.  The ssl and num arguments are ignored by the code. -/
def ssl_write_entry (c : SslCtx) (_ssl buf : Nat) (_num : Int) (st : SslState) :
    SslState :=
  { st with ssl_write_args := mapUpdate st.ssl_write_args c.pid_tgid buf }

/-- uretprobe/SSL_write return handler: looks up the saved buffer (bailing
out if absent), deletes the entry, and for a positive result emits the
event.  Returns the new map state and the committed event, if any. -/
def ssl_write_return (c : SslCtx) (reserveOk : Bool) (slot : ssl_data_event)
    (ret : Int) (st : SslState) : SslState × Option ssl_data_event :=
  match mapLookup st.ssl_write_args c.pid_tgid with
  | none => (st, none)
  | some buf =>
      let st2 : SslState :=
        { st with ssl_write_args := mapDelete st.ssl_write_args c.pid_tgid }
      if 0 < ret then (st2, emit_ssl_event c reserveOk slot buf ret SSL_WRITE)
      else (st2, none)

/-- uprobe/SSL_read entry handler: saves the buffer argument keyed by
pid_tgid. -/
def ssl_read_entry (c : SslCtx) (_ssl buf : Nat) (_num : Int) (st : SslState) :
    SslState :=
  { st with ssl_read_args := mapUpdate st.ssl_read_args c.pid_tgid buf }

/-- uretprobe/SSL_read return handler: mirror image of ssl_write_return on
the ssl_read_args map, emitting with type SSL_READ. -/
def ssl_read_return (c : SslCtx) (reserveOk : Bool) (slot : ssl_data_event)
    (ret : Int) (st : SslState) : SslState × Option ssl_data_event :=
  match mapLookup st.ssl_read_args c.pid_tgid with
  | none => (st, none)
  | some buf =>
      let st2 : SslState :=
        { st with ssl_read_args := mapDelete st.ssl_read_args c.pid_tgid }
      if 0 < ret then (st2, emit_ssl_event c reserveOk slot buf ret SSL_READ)
      else (st2, none)

/-! ## Process monitor (src/bpf/process_monitor.bpf.c) -/

def TASK_COMM_LEN : Nat := 16

def MAX_ARGS_LEN : Nat := 256

def MAX_PATH_LEN : Nat := 256

def PROC_EXEC : Nat := 0

def PROC_EXIT : Nat := 1

def PROC_FORK : Nat := 2

/-- struct process_event.  The comm, exe and args arrays are functions from
byte offset to byte value; exit_code is the signed s32 field. -/
structure process_event where
  timestamp_ns : Nat
  pid : Nat
  ppid : Nat
  uid : Nat
  gid : Nat
  type : Nat
  exit_code : Int
  comm : Nat → Nat
  exe : Nat → Nat
  args : Nat → Nat

/-- The current-task context read by trace_exec and trace_exit: ids, clock,
the parent task thread-group id, the task exit code, and the task comm. -/
structure TaskCtx where
  pid_tgid : Nat
  uid_gid : Nat
  ktime : Nat
  parent_tgid : Nat
  task_exit_code : Int
  comm : Nat → Nat

/-- tracepoint/sched/sched_process_exec handler: reserves a slot (failure
drops the event), fills ids, kind EXEC, zero auxiliary code, the current
comm, and the filename from the tracepoint; args is never written and keeps
the slot content.  Returns the committed event, if any. -/
def trace_exec (c : TaskCtx) (filename : Nat → Nat) (reserveOk : Bool)
    (slot : process_event) : Option process_event :=
  if reserveOk = false then none
  else
    some { slot with
            timestamp_ns := c.ktime
            pid := c.pid_tgid >>> 32
            ppid := c.parent_tgid
            uid := c.uid_gid % 2 ^ 32
            gid := c.uid_gid >>> 32
            type := PROC_EXEC
            exit_code := 0
            comm := strscpy_pad TASK_COMM_LEN c.comm slot.comm
            exe := bpf_probe_read_str MAX_PATH_LEN filename slot.exe }

/-- tracepoint/sched/sched_process_exit handler: like trace_exec but kind
EXIT and auxiliary code = the task exit code; exe and args are never written
and keep the slot content. -/
def trace_exit (c : TaskCtx) (reserveOk : Bool) (slot : process_event) :
    Option process_event :=
  if reserveOk = false then none
  else
    some { slot with
            timestamp_ns := c.ktime
            pid := c.pid_tgid >>> 32
            ppid := c.parent_tgid
            uid := c.uid_gid % 2 ^ 32
            gid := c.uid_gid >>> 32
            type := PROC_EXIT
            exit_code := c.task_exit_code
            comm := strscpy_pad TASK_COMM_LEN c.comm slot.comm }

/-- tracepoint/sched/sched_process_fork handler: reads only the tracepoint
fields parent_pid, child_pid and parent_comm; pid and ppid both record the
parent, the child pid goes into exit_code, and comm is string-copied from
parent_comm.  uid, gid, exe and args are never written and keep the slot
content. -/
def trace_fork (ktime : Nat) (parent_pid child_pid : Nat)
    (parent_comm : Nat → Nat) (reserveOk : Bool) (slot : process_event) :
    Option process_event :=
  if reserveOk = false then none
  else
    some { slot with
            timestamp_ns := ktime
            pid := parent_pid
            ppid := parent_pid
            type := PROC_FORK
            exit_code := (child_pid : Int)
            comm := bpf_probe_read_str TASK_COMM_LEN parent_comm slot.comm }

/-! ## Concrete fixtures used by witnesses and counterexamples -/

/-- The all-zero byte region. -/
def zeroBytes : Nat → Nat := fun _ => 0

/-- An all-ones byte region: a stale slot content with no NUL anywhere. -/
def junkBytes : Nat → Nat := fun _ => 1

/-- A short NUL-terminated string (three bytes 65 then NUL). -/
def pc0 : Nat → Nat := fun i => if i < 3 then 65 else 0

/-- A source string with no NUL at any offset (exercises truncation). -/
def longName : Nat → Nat := fun _ => 66

/-- A zeroed reserved ssl_data_event slot. -/
def slot0 : ssl_data_event :=
  { timestamp_ns := 0, pid := 0, tid := 0, uid := 0, data_len := 0, type := 0,
    data := zeroBytes, comm := zeroBytes }

/-- A concrete SSL context: pid_tgid = 7 * 2 ^ 32 + 9, user memory holding
byte 171 everywhere, every bounds-checked read succeeding. -/
def ctx0 : SslCtx :=
  { pid_tgid := 30064771081, uid_gid := 1000, ktime := 111, comm := pc0,
    userMem := fun _ => 171, readOk := fun _ _ => true }

/-- Same context but every bounds-checked user read fails. -/
def ctxNoRead : SslCtx :=
  { ctx0 with readOk := fun _ _ => false }

/-- A store holding a write entry (buffer 5000) and a read entry (buffer
6000) for the thread of ctx0. -/
def st0 : SslState :=
  { ssl_write_args := [(30064771081, 5000)], ssl_read_args := [(30064771081, 6000)] }

/-- The empty correlation stores. -/
def stEmpty : SslState := { ssl_write_args := [], ssl_read_args := [] }

/-- The event committed by a matched SSL_write return with ret = 10. -/
def c3event : ssl_data_event :=
  ((ssl_write_return ctx0 true slot0 10 st0).2).getD slot0

/-- The event committed by a matched SSL_write return with
ret = MAX_DATA_SIZE exactly. -/
def c2event : ssl_data_event :=
  ((ssl_write_return ctx0 true slot0 16384 st0).2).getD slot0

/-- A reserved process_event slot full of stale non-NUL bytes, with stale
uid 77 and gid 88. -/
def slotJunk : process_event :=
  { timestamp_ns := 0, pid := 0, ppid := 0, uid := 77, gid := 88, type := 0,
    exit_code := 0, comm := junkBytes, exe := junkBytes, args := junkBytes }

/-- A concrete task context for trace_exec and trace_exit. -/
def tctx0 : TaskCtx :=
  { pid_tgid := 30064771081, uid_gid := 4295000100, ktime := 5,
    parent_tgid := 3, task_exit_code := 9, comm := pc0 }

/-- The event emitted by a fork firing with parent pid 100 and child pid
200 from the stale slot. -/
def forkEv : process_event :=
  (trace_fork 7 100 200 pc0 true slotJunk).getD slotJunk

/-- The event emitted by an exec firing whose filename has no NUL within
the path capacity. -/
def execEv : process_event :=
  (trace_exec tctx0 longName true slotJunk).getD slotJunk

/-! ## Helper lemmas: byte strings -/

theorem cstrLenAux_le (src : Nat → Nat) (n i : Nat) : cstrLenAux src i n ≤ n := by
  induction n generalizing i with
  | zero => simp [cstrLenAux]
  | succ n ih =>
      simp only [cstrLenAux]
      split
      · omega
      · exact Nat.succ_le_succ (ih (i + 1))

theorem cstrLen_le (src : Nat → Nat) (cap : Nat) : cstrLen src cap ≤ cap :=
  cstrLenAux_le src cap 0

theorem hasNulWithin_of_val (f : Nat → Nat) (cap i : Nat) (hi : i < cap)
    (h0 : f i = 0) : hasNulWithin f cap = true := by
  simp only [hasNulWithin, List.any_eq_true]
  exact ⟨i, List.mem_range.mpr hi, by simp [h0]⟩

theorem strscpy_pad_last_nul (size : Nat) (src old : Nat → Nat) (h : 0 < size) :
    strscpy_pad size src old (size - 1) = 0 := by
  have h1 : cstrLen src (size - 1) ≤ size - 1 := cstrLen_le src (size - 1)
  simp only [strscpy_pad]
  rw [if_pos (by omega), if_neg (by omega)]

theorem hasNul_strscpy_pad (size : Nat) (src old : Nat → Nat) (h : 0 < size) :
    hasNulWithin (strscpy_pad size src old) size = true :=
  hasNulWithin_of_val _ size (size - 1) (by omega)
    (strscpy_pad_last_nul size src old h)

theorem bpf_probe_read_str_term_nul (size : Nat) (src old : Nat → Nat) :
    bpf_probe_read_str size src old (cstrLen src (size - 1)) = 0 := by
  simp only [bpf_probe_read_str]
  rw [if_neg (by omega)]
  simp

theorem hasNul_bpf_probe_read_str (size : Nat) (src old : Nat → Nat)
    (h : 0 < size) :
    hasNulWithin (bpf_probe_read_str size src old) size = true := by
  have h1 : cstrLen src (size - 1) ≤ size - 1 := cstrLen_le src (size - 1)
  exact hasNulWithin_of_val _ size (cstrLen src (size - 1)) (by omega)
    (bpf_probe_read_str_term_nul size src old)

theorem bpf_probe_read_str_copies (size : Nat) (src old : Nat → Nat) (i : Nat)
    (hi : i < cstrLen src (size - 1)) :
    bpf_probe_read_str size src old i = src i := by
  simp only [bpf_probe_read_str]
  rw [if_pos hi]

/-! ## Helper lemmas: the correlation-map model -/

theorem mapLookup_mapDelete (m : CorrMap) (k : Nat) :
    mapLookup (mapDelete m k) k = none := by
  induction m with
  | nil => rfl
  | cons p rest ih =>
      obtain ⟨k0, v0⟩ := p
      simp only [mapDelete]
      by_cases hk : k0 = k
      · rw [if_pos hk]; exact ih
      · rw [if_neg hk]
        simp only [mapLookup]
        rw [if_neg hk]
        exact ih

theorem keyCount_mapDelete (m : CorrMap) (k : Nat) :
    keyCount (mapDelete m k) k = 0 := by
  induction m with
  | nil => rfl
  | cons p rest ih =>
      obtain ⟨k0, v0⟩ := p
      simp only [mapDelete]
      by_cases hk : k0 = k
      · rw [if_pos hk]; exact ih
      · rw [if_neg hk]
        simp only [keyCount]
        rw [if_neg hk]
        omega

theorem mapLookup_mapUpdate (m : CorrMap) (k v : Nat) :
    mapLookup (mapUpdate m k v) k = some v := by
  induction m with
  | nil => simp [mapUpdate, mapLookup]
  | cons p rest ih =>
      obtain ⟨k0, v0⟩ := p
      simp only [mapUpdate]
      by_cases hk : k0 = k
      · rw [if_pos hk]
        simp [mapLookup]
      · rw [if_neg hk]
        simp only [mapLookup]
        rw [if_neg hk]
        exact ih

theorem keyCount_mapUpdate (m : CorrMap) (k v : Nat)
    (h : keyCount m k ≤ 1) : keyCount (mapUpdate m k v) k = 1 := by
  induction m with
  | nil => simp [mapUpdate, keyCount]
  | cons p rest ih =>
      obtain ⟨k0, v0⟩ := p
      by_cases hk : k0 = k
      · subst hk
        simp only [mapUpdate, if_pos rfl]
        simp [keyCount] at h ⊢
        omega
      · simp only [mapUpdate, if_neg hk]
        simp only [keyCount, if_neg hk] at h ⊢
        have h2 := ih (by omega)
        omega

/-! ## Helper lemmas: emit_ssl_event -/

theorem emit_ssl_event_data_len (c : SslCtx) (reserveOk : Bool)
    (slot : ssl_data_event) (buf : Nat) (len : Int) (ty : Nat)
    (ev : ssl_data_event)
    (h : emit_ssl_event c reserveOk slot buf len ty = some ev) :
    0 < ev.data_len ∧ ev.data_len ≤ MAX_DATA_SIZE := by
  simp only [emit_ssl_event] at h
  split at h
  · exact absurd h (by simp)
  · split at h
    · exact absurd h (by simp)
    · split at h
      · exact absurd h (by simp)
      · rename_i hlen hres hread
        injection h with h2
        subst h2
        push_neg at hlen
        have h3 : (MAX_DATA_SIZE : Int) = 16384 := by norm_num [MAX_DATA_SIZE]
        rw [h3] at hlen
        show 0 < len.toNat ∧ len.toNat ≤ 16384
        omega

theorem emit_ssl_event_none_of_read_fail (c : SslCtx) (reserveOk : Bool)
    (slot : ssl_data_event) (buf : Nat) (len : Int) (ty : Nat)
    (hread : c.readOk buf (Nat.land len.toNat (MAX_DATA_SIZE - 1)) = false) :
    emit_ssl_event c reserveOk slot buf len ty = none := by
  by_cases h1 : len ≤ 0 ∨ (MAX_DATA_SIZE : Int) < len
  · simp only [emit_ssl_event, if_pos h1]
  · by_cases h2 : reserveOk = false
    · simp only [emit_ssl_event, if_neg h1, if_pos h2]
    · simp only [emit_ssl_event, if_neg h1, if_neg h2, if_pos hread]

/-! ## Claims -/

/-- C1, counterexample: a matched SSL_write return reporting a transfer
length of MAX_DATA_SIZE + 1 emits no event at all — the length is rejected
by the bound check, not clamped to the capacity as the claim states. -/
theorem C1_counterexample :
    mapLookup st0.ssl_write_args ctx0.pid_tgid = some 5000 ∧
    (ssl_write_return ctx0 true slot0 16385 st0).2 = none := by
  exact ⟨rfl, rfl⟩

/-- C1, amended: for every TLS return whose reported transfer length
exceeds MAX_DATA_SIZE, the handler emits no event — out-of-range lengths are
rejected by the bound check in emit_ssl_event rather than clamped. -/
theorem C1_overlength_rejected (c : SslCtx) (reserveOk : Bool)
    (slot : ssl_data_event) (st : SslState) (ret : Int)
    (h : (MAX_DATA_SIZE : Int) < ret) :
    (ssl_write_return c reserveOk slot ret st).2 = none ∧
    (ssl_read_return c reserveOk slot ret st).2 = none := by
  have hmax : (MAX_DATA_SIZE : Int) = 16384 := by norm_num [MAX_DATA_SIZE]
  have h0 : 0 < ret := by omega
  constructor
  · cases hl : mapLookup st.ssl_write_args c.pid_tgid with
    | none => simp [ssl_write_return, hl]
    | some buf =>
        simp only [ssl_write_return, hl, if_pos h0]
        simp only [emit_ssl_event, if_pos (Or.inr h)]
  · cases hl : mapLookup st.ssl_read_args c.pid_tgid with
    | none => simp [ssl_read_return, hl]
    | some buf =>
        simp only [ssl_read_return, hl, if_pos h0]
        simp only [emit_ssl_event, if_pos (Or.inr h)]

/-- C1, witness: the amended theorem applied at ret = 16385 on the store
holding entries for the thread of ctx0. -/
theorem C1_overlength_rejected_witness :
    (ssl_write_return ctx0 true slot0 16385 st0).2 = none ∧
    (ssl_read_return ctx0 true slot0 16385 st0).2 = none :=
  C1_overlength_rejected ctx0 true slot0 st0 16385 (by decide)

/-- C2, boundary bug: a matched SSL_write return reporting exactly
ret = MAX_DATA_SIZE = 16384 commits an event whose data_len field is 16384,
yet zero bytes are copied from the user buffer (16384 masked with 16383 is
0): the first payload byte keeps the stale slot value 0 although the user
buffer holds byte 171 at the recorded address 5000. -/
theorem C2_boundary_copy_bug :
    (ssl_write_return ctx0 true slot0 16384 st0).2 = some c2event ∧
    c2event.data_len = MAX_DATA_SIZE ∧
    c2event.data 0 = 0 ∧
    ctx0.userMem (5000 + 0) = 171 :=
  ⟨rfl, rfl, rfl, rfl⟩

/-- C3: every event committed by an SSL return handler has
0 < data_len ≤ MAX_DATA_SIZE, and a call whose observed result is at most 0
commits no event. -/
theorem C3_data_len_bounds (c : SslCtx) (reserveOk : Bool)
    (slot : ssl_data_event) (st : SslState) (ret : Int) (ev : ssl_data_event) :
    ((ssl_write_return c reserveOk slot ret st).2 = some ev →
       0 < ev.data_len ∧ ev.data_len ≤ MAX_DATA_SIZE) ∧
    ((ssl_read_return c reserveOk slot ret st).2 = some ev →
       0 < ev.data_len ∧ ev.data_len ≤ MAX_DATA_SIZE) ∧
    (ret ≤ 0 →
       (ssl_write_return c reserveOk slot ret st).2 = none ∧
       (ssl_read_return c reserveOk slot ret st).2 = none) := by
  refine ⟨?_, ?_, ?_⟩
  · intro h
    cases hl : mapLookup st.ssl_write_args c.pid_tgid with
    | none => simp [ssl_write_return, hl] at h
    | some buf =>
        simp only [ssl_write_return, hl] at h
        by_cases h0 : 0 < ret
        · rw [if_pos h0] at h
          exact emit_ssl_event_data_len c reserveOk slot buf ret SSL_WRITE ev h
        · rw [if_neg h0] at h
          simp at h
  · intro h
    cases hl : mapLookup st.ssl_read_args c.pid_tgid with
    | none => simp [ssl_read_return, hl] at h
    | some buf =>
        simp only [ssl_read_return, hl] at h
        by_cases h0 : 0 < ret
        · rw [if_pos h0] at h
          exact emit_ssl_event_data_len c reserveOk slot buf ret SSL_READ ev h
        · rw [if_neg h0] at h
          simp at h
  · intro h
    have h0 : ¬ 0 < ret := by omega
    constructor
    · cases hl : mapLookup st.ssl_write_args c.pid_tgid with
      | none => simp [ssl_write_return, hl]
      | some buf => simp only [ssl_write_return, hl, if_neg h0]
    · cases hl : mapLookup st.ssl_read_args c.pid_tgid with
      | none => simp [ssl_read_return, hl]
      | some buf => simp only [ssl_read_return, hl, if_neg h0]

/-- C3, witness: the event committed by a matched SSL_write return with
ret = 10 satisfies the data_len bounds. -/
theorem C3_data_len_bounds_witness :
    0 < c3event.data_len ∧ c3event.data_len ≤ MAX_DATA_SIZE :=
  (C3_data_len_bounds ctx0 true slot0 st0 10 c3event).1 rfl

/-- C5: a correlation entry present when the matching return handler runs
is removed during that invocation whatever the value of ret (also when
ret ≤ 0 and no event is emitted): afterwards the key resolves to nothing
and the store holds zero entries for it. -/
theorem C5_entry_removed (c : SslCtx) (reserveOk : Bool)
    (slot : ssl_data_event) (st : SslState) (ret : Int) (bufW bufR : Nat) :
    (mapLookup st.ssl_write_args c.pid_tgid = some bufW →
       mapLookup (ssl_write_return c reserveOk slot ret st).1.ssl_write_args
           c.pid_tgid = none ∧
       keyCount (ssl_write_return c reserveOk slot ret st).1.ssl_write_args
           c.pid_tgid = 0) ∧
    (mapLookup st.ssl_read_args c.pid_tgid = some bufR →
       mapLookup (ssl_read_return c reserveOk slot ret st).1.ssl_read_args
           c.pid_tgid = none ∧
       keyCount (ssl_read_return c reserveOk slot ret st).1.ssl_read_args
           c.pid_tgid = 0) := by
  constructor
  · intro h
    simp only [ssl_write_return, h]
    by_cases h0 : 0 < ret
    · rw [if_pos h0]
      exact ⟨mapLookup_mapDelete _ _, keyCount_mapDelete _ _⟩
    · rw [if_neg h0]
      exact ⟨mapLookup_mapDelete _ _, keyCount_mapDelete _ _⟩
  · intro h
    simp only [ssl_read_return, h]
    by_cases h0 : 0 < ret
    · rw [if_pos h0]
      exact ⟨mapLookup_mapDelete _ _, keyCount_mapDelete _ _⟩
    · rw [if_neg h0]
      exact ⟨mapLookup_mapDelete _ _, keyCount_mapDelete _ _⟩

/-- C5, witness: on the concrete store holding a write entry for the
thread of ctx0, a write return with ret = 0 (no event emitted) still leaves
no resident entry for the key. -/
theorem C5_entry_removed_witness :
    mapLookup (ssl_write_return ctx0 true slot0 0 st0).1.ssl_write_args
        ctx0.pid_tgid = none ∧
    keyCount (ssl_write_return ctx0 true slot0 0 st0).1.ssl_write_args
        ctx0.pid_tgid = 0 :=
  (C5_entry_removed ctx0 true slot0 st0 0 5000 6000).1 rfl

/-- C6: on a well-formed store (at most one resident entry for the key), a
second entry-handler invocation before the first call's return leaves
exactly one resident entry for the key, holding the second call's buffer
argument, for the write kind and the read kind alike. -/
theorem C6_second_entry_overwrites (c : SslCtx) (st : SslState)
    (ssl1 ssl2 buf1 buf2 : Nat) (num1 num2 : Int)
    (hw : keyCount st.ssl_write_args c.pid_tgid ≤ 1)
    (hr : keyCount st.ssl_read_args c.pid_tgid ≤ 1) :
    (mapLookup (ssl_write_entry c ssl2 buf2 num2
          (ssl_write_entry c ssl1 buf1 num1 st)).ssl_write_args c.pid_tgid =
        some buf2 ∧
     keyCount (ssl_write_entry c ssl2 buf2 num2
          (ssl_write_entry c ssl1 buf1 num1 st)).ssl_write_args c.pid_tgid = 1) ∧
    (mapLookup (ssl_read_entry c ssl2 buf2 num2
          (ssl_read_entry c ssl1 buf1 num1 st)).ssl_read_args c.pid_tgid =
        some buf2 ∧
     keyCount (ssl_read_entry c ssl2 buf2 num2
          (ssl_read_entry c ssl1 buf1 num1 st)).ssl_read_args c.pid_tgid = 1) := by
  have hw1 : keyCount (mapUpdate st.ssl_write_args c.pid_tgid buf1)
      c.pid_tgid = 1 := keyCount_mapUpdate _ _ _ hw
  have hr1 : keyCount (mapUpdate st.ssl_read_args c.pid_tgid buf1)
      c.pid_tgid = 1 := keyCount_mapUpdate _ _ _ hr
  refine ⟨⟨?_, ?_⟩, ⟨?_, ?_⟩⟩
  · exact mapLookup_mapUpdate _ _ _
  · exact keyCount_mapUpdate _ _ _ hw1.le
  · exact mapLookup_mapUpdate _ _ _
  · exact keyCount_mapUpdate _ _ _ hr1.le

/-- C6, witness: two successive write entries on the empty store leave one
entry resolving to the second buffer argument. -/
theorem C6_second_entry_overwrites_witness :
    mapLookup (ssl_write_entry ctx0 1 6000 3
        (ssl_write_entry ctx0 1 5000 3 stEmpty)).ssl_write_args
      ctx0.pid_tgid = some 6000 :=
  (C6_second_entry_overwrites ctx0 stEmpty 1 1 5000 6000 3 3
    (by decide) (by decide)).1.1

/-- C8: when the bounds-checked read of the recorded user buffer fails at
return time, the reserved slot is discarded: no event is committed for the
call, and the handler still completes (the correlation entry is removed). -/
theorem C8_failed_read_discards (c : SslCtx) (slot : ssl_data_event)
    (st : SslState) (ret : Int) (bufW bufR : Nat)
    (hret : 0 < ret)
    (hW : mapLookup st.ssl_write_args c.pid_tgid = some bufW)
    (hR : mapLookup st.ssl_read_args c.pid_tgid = some bufR)
    (hreadW : c.readOk bufW (Nat.land ret.toNat (MAX_DATA_SIZE - 1)) = false)
    (hreadR : c.readOk bufR (Nat.land ret.toNat (MAX_DATA_SIZE - 1)) = false) :
    (ssl_write_return c true slot ret st).2 = none ∧
    mapLookup (ssl_write_return c true slot ret st).1.ssl_write_args
        c.pid_tgid = none ∧
    (ssl_read_return c true slot ret st).2 = none ∧
    mapLookup (ssl_read_return c true slot ret st).1.ssl_read_args
        c.pid_tgid = none := by
  refine ⟨?_, ?_, ?_, ?_⟩
  · simp only [ssl_write_return, hW, if_pos hret]
    exact emit_ssl_event_none_of_read_fail c true slot bufW ret SSL_WRITE hreadW
  · simp only [ssl_write_return, hW, if_pos hret]
    exact mapLookup_mapDelete _ _
  · simp only [ssl_read_return, hR, if_pos hret]
    exact emit_ssl_event_none_of_read_fail c true slot bufR ret SSL_READ hreadR
  · simp only [ssl_read_return, hR, if_pos hret]
    exact mapLookup_mapDelete _ _

/-- C8, witness: in the context where every user read fails, a matched
write return with ret = 10 commits nothing and removes its entry. -/
theorem C8_failed_read_discards_witness :
    (ssl_write_return ctxNoRead true slot0 10 st0).2 = none ∧
    mapLookup (ssl_write_return ctxNoRead true slot0 10 st0).1.ssl_write_args
        ctxNoRead.pid_tgid = none ∧
    (ssl_read_return ctxNoRead true slot0 10 st0).2 = none ∧
    mapLookup (ssl_read_return ctxNoRead true slot0 10 st0).1.ssl_read_args
        ctxNoRead.pid_tgid = none :=
  C8_failed_read_discards ctxNoRead slot0 st0 10 5000 6000
    (by decide) rfl rfl rfl rfl

/-- C9: a return-handler invocation whose calling-thread identity has no
entry in the corresponding correlation store returns with no event and the
whole state (both stores) unchanged. -/
theorem C9_unmatched_return_noop (c : SslCtx) (reserveOk : Bool)
    (slot : ssl_data_event) (st : SslState) (ret : Int) :
    (mapLookup st.ssl_write_args c.pid_tgid = none →
       ssl_write_return c reserveOk slot ret st = (st, none)) ∧
    (mapLookup st.ssl_read_args c.pid_tgid = none →
       ssl_read_return c reserveOk slot ret st = (st, none)) := by
  constructor
  · intro h
    simp only [ssl_write_return, h]
  · intro h
    simp only [ssl_read_return, h]

/-- C9, witness: a write return with ret = 10 on the empty stores changes
nothing and emits nothing. -/
theorem C9_unmatched_return_noop_witness :
    ssl_write_return ctx0 true slot0 10 stEmpty = (stEmpty, none) :=
  (C9_unmatched_return_noop ctx0 true slot0 stEmpty 10).1 rfl

/-- C4, counterexample: a FORK event emitted from a reserved slot whose
stale args bytes are all nonzero carries an args field with no NUL within
its declared capacity — trace_fork (like trace_exit) never writes exe or
args, and no handler ever writes args, so those fields are not
NUL-terminated regardless of input. -/
theorem C4_counterexample :
    trace_fork 7 100 200 pc0 true slotJunk = some forkEv ∧
    hasNulWithin forkEv.args MAX_ARGS_LEN = false ∧
    hasNulWithin forkEv.exe MAX_PATH_LEN = false := by
  refine ⟨rfl, ?_, ?_⟩ <;> decide

/-- C4, amended: for every emitted ProcessEvent, the string fields the
handler actually writes are NUL-terminated within their declared capacity
regardless of the source string length: the command name for every kind,
and the executable path for EXEC.  The argument string is never written by
any handler, and the executable path is not written on EXIT and FORK; those
fields keep the reserved slot's prior unspecified content. -/
theorem C4_written_strings_nul_terminated (c : TaskCtx)
    (filename : Nat → Nat) (ktime parentPid childPid : Nat)
    (pcomm : Nat → Nat) (reserveOk : Bool) (slot : process_event)
    (ev1 ev2 ev3 : process_event) :
    (trace_exec c filename reserveOk slot = some ev1 →
       hasNulWithin ev1.comm TASK_COMM_LEN = true ∧
       hasNulWithin ev1.exe MAX_PATH_LEN = true ∧
       ev1.args = slot.args) ∧
    (trace_exit c reserveOk slot = some ev2 →
       hasNulWithin ev2.comm TASK_COMM_LEN = true ∧
       ev2.exe = slot.exe ∧ ev2.args = slot.args) ∧
    (trace_fork ktime parentPid childPid pcomm reserveOk slot = some ev3 →
       hasNulWithin ev3.comm TASK_COMM_LEN = true ∧
       ev3.exe = slot.exe ∧ ev3.args = slot.args) := by
  refine ⟨?_, ?_, ?_⟩
  · intro h
    simp only [trace_exec] at h
    split at h
    · exact absurd h (by simp)
    · injection h with h2
      subst h2
      refine ⟨?_, ?_, rfl⟩
      · exact hasNul_strscpy_pad TASK_COMM_LEN c.comm slot.comm (by decide)
      · exact hasNul_bpf_probe_read_str MAX_PATH_LEN filename slot.exe (by decide)
  · intro h
    simp only [trace_exit] at h
    split at h
    · exact absurd h (by simp)
    · injection h with h2
      subst h2
      exact ⟨hasNul_strscpy_pad TASK_COMM_LEN c.comm slot.comm (by decide), rfl, rfl⟩
  · intro h
    simp only [trace_fork] at h
    split at h
    · exact absurd h (by simp)
    · injection h with h2
      subst h2
      exact ⟨hasNul_bpf_probe_read_str TASK_COMM_LEN pcomm slot.comm (by decide),
             rfl, rfl⟩

/-- C4, witness: an exec firing whose filename has no NUL at any offset
still yields NUL-terminated comm and exe fields, and args keeps the stale
slot content. -/
theorem C4_written_strings_nul_terminated_witness :
    hasNulWithin execEv.comm TASK_COMM_LEN = true ∧
    hasNulWithin execEv.exe MAX_PATH_LEN = true ∧
    execEv.args = slotJunk.args :=
  (C4_written_strings_nul_terminated tctx0 longName 7 100 200 pc0 true
    slotJunk execEv execEv execEv).1 rfl

/-- C7: a fork firing reporting parent pid P and child pid C, when the
reservation succeeds, emits an event with pid = ppid = P, kind FORK,
exit_code = C, and the command name string-copied from the parent comm of
the tracepoint (all bytes of the parent comm before its NUL are copied and
the result is NUL-terminated within the comm capacity). -/
theorem C7_fork_fields (ktime parentPid childPid : Nat)
    (pcomm : Nat → Nat) (reserveOk : Bool) (slot : process_event)
    (ev : process_event)
    (h : trace_fork ktime parentPid childPid pcomm reserveOk slot = some ev) :
    ev.pid = parentPid ∧ ev.ppid = parentPid ∧ ev.type = PROC_FORK ∧
    ev.exit_code = (childPid : Int) ∧
    (∀ i, i < cstrLen pcomm (TASK_COMM_LEN - 1) → ev.comm i = pcomm i) ∧
    hasNulWithin ev.comm TASK_COMM_LEN = true := by
  simp only [trace_fork] at h
  split at h
  · exact absurd h (by simp)
  · injection h with h2
    subst h2
    refine ⟨rfl, rfl, rfl, rfl, ?_, ?_⟩
    · intro i hi
      exact bpf_probe_read_str_copies TASK_COMM_LEN pcomm slot.comm i hi
    · exact hasNul_bpf_probe_read_str TASK_COMM_LEN pcomm slot.comm (by decide)

/-- C7, witness: the fork firing with parent pid 100 and child pid 200
yields pid = ppid = 100, kind FORK and exit_code = 200. -/
theorem C7_fork_fields_witness :
    forkEv.pid = 100 ∧ forkEv.ppid = 100 ∧ forkEv.type = PROC_FORK ∧
    forkEv.exit_code = (200 : Int) := by
  have h := C7_fork_fields 7 100 200 pc0 true slotJunk forkEv rfl
  exact ⟨h.1, h.2.1, h.2.2.1, h.2.2.2.1⟩

/-- C10: trace_fork never assigns uid or gid — an emitted FORK event keeps
whatever the reserved slot already held in those fields — while trace_exec
and trace_exit populate uid from the low 32 bits and gid from the high 32
bits of the calling credential context. -/
theorem C10_fork_uid_gid_frame (c : TaskCtx) (filename : Nat → Nat)
    (ktime parentPid childPid : Nat) (pcomm : Nat → Nat) (reserveOk : Bool)
    (slot : process_event) (ev1 ev2 ev3 : process_event) :
    (trace_fork ktime parentPid childPid pcomm reserveOk slot = some ev3 →
       ev3.uid = slot.uid ∧ ev3.gid = slot.gid) ∧
    (trace_exec c filename reserveOk slot = some ev1 →
       ev1.uid = c.uid_gid % 2 ^ 32 ∧ ev1.gid = c.uid_gid >>> 32) ∧
    (trace_exit c reserveOk slot = some ev2 →
       ev2.uid = c.uid_gid % 2 ^ 32 ∧ ev2.gid = c.uid_gid >>> 32) := by
  refine ⟨?_, ?_, ?_⟩
  · intro h
    simp only [trace_fork] at h
    split at h
    · exact absurd h (by simp)
    · injection h with h2
      subst h2
      exact ⟨rfl, rfl⟩
  · intro h
    simp only [trace_exec] at h
    split at h
    · exact absurd h (by simp)
    · injection h with h2
      subst h2
      exact ⟨rfl, rfl⟩
  · intro h
    simp only [trace_exit] at h
    split at h
    · exact absurd h (by simp)
    · injection h with h2
      subst h2
      exact ⟨rfl, rfl⟩

/-- C10, witness: the concrete FORK event keeps the stale uid 77 and gid
88 of the reserved slot. -/
theorem C10_fork_uid_gid_frame_witness :
    forkEv.uid = slotJunk.uid ∧ forkEv.gid = slotJunk.gid :=
  (C10_fork_uid_gid_frame tctx0 longName 7 100 200 pc0 true slotJunk
    forkEv forkEv forkEv).1 rfl

end OISP
